import Mathlib

/-!
Verification of the polls application (questions/choices with
publication-time visibility rules).

The repository ships `polls/tests.py` and `polls/admin.py`; the model and
view modules (`polls/models.py`, `polls/views.py`) that the tests exercise
are not present, so their operations are modelled from the specification
(each such definition carries a doc comment starting `Modelled from the
spec:`). Timestamps are modelled as integers counting seconds, so that
24 hours is the constant 86400 and `datetime` arithmetic becomes integer
arithmetic.
-/

namespace Polls

/-- One day (24 hours) expressed in seconds, the unit of our timestamps. -/
def oneDay : Int := 86400

/-- A persisted question: identifier, text, and publication timestamp
(`pub_date` in the source). -/
structure Question where
  id : Nat
  question_text : String
  pub_date : Int
deriving Repr, DecidableEq

/-- A persisted choice: identifier, the id of the owning question
(`question` foreign key), text, and vote counter. -/
structure Choice where
  id : Nat
  question : Nat
  choice_text : String
  votes : Int
deriving Repr, DecidableEq

/-- Modelled from the spec: `Question.was_published_recently` from the
missing `polls/models.py`. Returns `true` iff the publication time lies in
the half-open interval `(now - 24h, now]`: the lower bound is strictly
exclusive and the upper bound inclusive. -/
def was_published_recently (pub_date now : Int) : Bool :=
  decide (now - oneDay < pub_date) && decide (pub_date ≤ now)

/-- Whether a question has at least one associated choice in the given
collection of choices (an existence check on the foreign key). -/
def has_choice (choices : List Choice) (q : Question) : Bool :=
  choices.any fun c => c.question == q.id

/-- Modelled from the spec: the index-view queryset of the missing
`polls/views.py` (`list_published_with_choices`). Keeps the questions with
`pub_date ≤ now` that have at least one choice, ordered by `pub_date`
descending (most recent first). -/
def list_published_with_choices (questions : List Question)
    (choices : List Choice) (now : Int) : List Question :=
  (questions.filter fun q =>
    decide (q.pub_date ≤ now) && has_choice choices q).mergeSort
    fun a b => decide (b.pub_date ≤ a.pub_date)

/-- Outcome of a single-question lookup: a not-found failure, or a rendered
output (here, the text the view displays). -/
inductive LookupResult where
  | NotFound : LookupResult
  | Found : String → LookupResult
deriving Repr, DecidableEq

/-- Fetch a question by identifier from the collection. -/
def get_question (questions : List Question) (i : Nat) : Option Question :=
  questions.find? fun q => q.id == i

/-- Modelled from the spec: the detail view of the missing
`polls/views.py`. Fails with NotFound when the question is absent or its
`pub_date` is in the future; otherwise renders the question's text. -/
def detail_lookup (questions : List Question) (now : Int) (i : Nat) :
    LookupResult :=
  match get_question questions i with
  | none => .NotFound
  | some q => if q.pub_date ≤ now then .Found q.question_text else .NotFound

/-- Modelled from the spec: the results view of the missing
`polls/views.py`, applying the same publication-time gate as the detail
view. -/
def results_lookup (questions : List Question) (now : Int) (i : Nat) :
    LookupResult :=
  match get_question questions i with
  | none => .NotFound
  | some q => if q.pub_date ≤ now then .Found q.question_text else .NotFound

/-- A caller-supplied value for a choice's text: either already textual or
numeric (the two cases the tests exercise, e.g. the numeric value 333). -/
inductive Value where
  | str : String → Value
  | num : Int → Value
deriving Repr, DecidableEq

/-- Textual form of a supplied value. -/
def coerce_text : Value → String
  | .str s => s
  | .num n => toString n

/-- Modelled from the spec: creation of a Choice linked to a question
(missing `polls/models.py`): the supplied text value is stored in textual
form, and the vote counter defaults to zero. -/
def create_choice (q : Question) (v : Value) (fresh : Nat) : Choice :=
  { id := fresh, question := q.id, choice_text := coerce_text v, votes := 0 }

/-- The editable fields listed by `QuestionAdmin` in `polls/admin.py`. -/
def QuestionAdmin.fields : List String := ["pub_date", "question_text"]

end Polls

open Polls

/-- Membership in the index listing is exactly membership in the input
together with the publication and choice conditions. -/
theorem mem_list_published_iff (questions : List Question)
    (choices : List Choice) (now : Int) (q : Question) :
    q ∈ list_published_with_choices questions choices now ↔
      (q ∈ questions ∧ q.pub_date ≤ now ∧ has_choice choices q = true) := by
  simp [list_published_with_choices, List.mem_mergeSort, List.mem_filter,
    and_assoc]

/-- C1: `was_published_recently t now` is true iff `now - 24h < t ≤ now`;
in particular a future `t` and a `t` older than 24 hours give false. -/
theorem c1_was_published_recently_iff (t now : Int) :
    was_published_recently t now = true ↔ (now - oneDay < t ∧ t ≤ now) := by
  simp [was_published_recently]

/-- C3: at the boundaries, `was_published_recently` is true at
`t = now` (upper bound inclusive) and false at `t = now - 24h` (lower
bound strictly exclusive). -/
theorem c3_boundaries (now : Int) :
    was_published_recently now now = true ∧
      was_published_recently (now - oneDay) now = false := by
  constructor
  · simp [was_published_recently, oneDay]
  · simp [was_published_recently]

/-- C4: the listing contains exactly the input questions with
`pub_date ≤ now` and at least one associated choice; a future-dated
question is excluded even when it has choices. -/
theorem c4_listing_membership (questions : List Question)
    (choices : List Choice) (now : Int) (q : Question) :
    q ∈ list_published_with_choices questions choices now ↔
      (q ∈ questions ∧ q.pub_date ≤ now ∧ has_choice choices q = true) :=
  mem_list_published_iff questions choices now q

/-- C5: a question with no associated choice never appears in the listing,
even when its publication time is in the past. -/
theorem c5_no_choices_excluded (questions : List Question)
    (choices : List Choice) (now : Int) (q : Question)
    (h : has_choice choices q = false) :
    q ∉ list_published_with_choices questions choices now := by
  intro hmem
  have hc := ((mem_list_published_iff questions choices now q).mp hmem).2.2
  rw [h] at hc
  exact Bool.false_ne_true hc

/-- Witness for C5 at a concrete input: a past question with zero choices
is not listed. -/
theorem c5_witness :
    (⟨1, "Past question.", -100⟩ : Question) ∉
      list_published_with_choices [⟨1, "Past question.", -100⟩] [] 0 :=
  c5_no_choices_excluded [⟨1, "Past question.", -100⟩] [] 0
    ⟨1, "Past question.", -100⟩ rfl

/-- C6: when every input question is published with at least one choice,
the listing is sorted by publication time in descending order. -/
theorem c6_sorted_desc (questions : List Question) (choices : List Choice)
    (now : Int)
    (_h : ∀ q ∈ questions, q.pub_date ≤ now ∧ has_choice choices q = true) :
    (list_published_with_choices questions choices now).Pairwise
      fun a b => b.pub_date ≤ a.pub_date := by
  have hs := @List.sorted_mergeSort Question
    (fun a b => decide (b.pub_date ≤ a.pub_date))
    (fun a b c hab hbc => by
      simp only [decide_eq_true_eq] at *; omega)
    (fun a b => by
      simp only [Bool.or_eq_true, decide_eq_true_eq]; omega)
    (questions.filter fun q =>
      decide (q.pub_date ≤ now) && has_choice choices q)
  exact hs.imp fun hab => of_decide_eq_true hab

/-- Witness for C6 at a concrete input: two past questions with one choice
each; the listing is pairwise descending in publication time. -/
theorem c6_witness :
    (list_published_with_choices
      [⟨1, "Past question 1.", -30⟩, ⟨2, "Past question 2.", -5⟩]
      [⟨1, 1, "Choice 1.", 0⟩, ⟨2, 2, "Choice 1.", 0⟩] 0).Pairwise
      (fun a b => b.pub_date ≤ a.pub_date) :=
  c6_sorted_desc
    [⟨1, "Past question 1.", -30⟩, ⟨2, "Past question 2.", -5⟩]
    [⟨1, 1, "Choice 1.", 0⟩, ⟨2, 2, "Choice 1.", 0⟩] 0 (by decide)

/-- C2: the detail and results lookups fail with NotFound both when the
question exists by identifier but its publication time is strictly in the
future, and when no question has the identifier; the two conditions are
indistinguishable to the caller. -/
theorem c2_future_or_absent_not_found (questions : List Question)
    (now : Int) (i : Nat)
    (h : (∃ q, get_question questions i = some q ∧ now < q.pub_date) ∨
      get_question questions i = none) :
    detail_lookup questions now i = .NotFound ∧
      results_lookup questions now i = .NotFound := by
  unfold detail_lookup results_lookup
  rcases h with ⟨q, hq, hlt⟩ | hn
  · rw [hq]
    simp [not_le.mpr hlt]
  · rw [hn]
    exact ⟨rfl, rfl⟩

/-- Witness for C2 at a concrete input: a future question (pub_date 100,
now 0) yields NotFound from both lookups. -/
theorem c2_witness :
    detail_lookup [⟨1, "Future question.", 100⟩] 0 1 = .NotFound ∧
      results_lookup [⟨1, "Future question.", 100⟩] 0 1 = .NotFound :=
  c2_future_or_absent_not_found [⟨1, "Future question.", 100⟩] 0 1
    (Or.inl ⟨⟨1, "Future question.", 100⟩, rfl, by decide⟩)

/-- C7: on a question published at or before now, the detail and results
lookups by its identifier succeed and return the question's text. -/
theorem c7_past_lookup_succeeds (questions : List Question) (now : Int)
    (i : Nat) (q : Question)
    (hfind : get_question questions i = some q) (hpub : q.pub_date ≤ now) :
    detail_lookup questions now i = .Found q.question_text ∧
      results_lookup questions now i = .Found q.question_text := by
  unfold detail_lookup results_lookup
  rw [hfind]
  simp [hpub]

/-- Witness for C7 at a concrete input: a past question (pub_date -5,
now 0) is found by both lookups with its text. -/
theorem c7_witness :
    detail_lookup [⟨1, "Past question.", -5⟩] 0 1 =
        .Found "Past question." ∧
      results_lookup [⟨1, "Past question.", -5⟩] 0 1 =
        .Found "Past question." :=
  c7_past_lookup_succeeds [⟨1, "Past question.", -5⟩] 0 1
    ⟨1, "Past question.", -5⟩ rfl (by decide)

/-- C8: whatever value is supplied as the text of a Choice at creation,
textual or numeric, the stored text is a string: the textual form of the
supplied value. -/
theorem c8_choice_text_textual (q : Question) (v : Value) (fresh : Nat) :
    (create_choice q v fresh).choice_text = coerce_text v ∧
      (∀ n : Int, create_choice q (.num n) fresh = create_choice q
        (.str (toString n)) fresh) :=
  ⟨rfl, fun _ => rfl⟩

/-- C9: the administrative registration for Question exposes exactly
pub_date and question_text as the editable fields, and no other field. -/
theorem c9_admin_fields (f : String) :
    f ∈ QuestionAdmin.fields ↔ (f = "pub_date" ∨ f = "question_text") := by
  simp [QuestionAdmin.fields]

/-- C10: when each question appears once in the input, every qualifying
question appears exactly once in the listing: it is never duplicated, even
when it has several choices. -/
theorem c10_no_duplicates (questions : List Question)
    (choices : List Choice) (now : Int) (hnd : questions.Nodup)
    (q : Question) (hq : q ∈ questions) (hpub : q.pub_date ≤ now)
    (hch : has_choice choices q = true) :
    (list_published_with_choices questions choices now).count q = 1 := by
  have hperm := List.mergeSort_perm
    (questions.filter fun p =>
      decide (p.pub_date ≤ now) && has_choice choices p)
    fun a b => decide (b.pub_date ≤ a.pub_date)
  rw [list_published_with_choices, hperm.count_eq]
  refine List.count_eq_one_of_mem (hnd.filter _) ?_
  rw [List.mem_filter]
  exact ⟨hq, by simp [hpub, hch]⟩

/-- Witness for C10 at a concrete input: a past question with two choices
appears exactly once in the listing. -/
theorem c10_witness :
    (list_published_with_choices [⟨1, "Past question.", -5⟩]
      [⟨1, 1, "Choice 1.", 0⟩, ⟨2, 1, "Choice 2.", 0⟩] 0).count
      ⟨1, "Past question.", -5⟩ = 1 :=
  c10_no_duplicates [⟨1, "Past question.", -5⟩]
    [⟨1, 1, "Choice 1.", 0⟩, ⟨2, 1, "Choice 2.", 0⟩] 0 (by decide)
    ⟨1, "Past question.", -5⟩ (by decide) (by decide) (by decide)
